import Mathlib

/-!
Verification of the request handlers in `functions/main.py` of the ABB
customer-support backend.

The Python handlers are shallowly embedded as pure Lean functions.  External
effects (HTTP fetches, the generative-AI file store and generation calls, the
filesystem state of the temporary PDF file) are abstracted as oracle fields of
an environment record, and each handler returns its HTTP response together
with the list of outbound calls it performed and the final state of the
temporary file.  Machine strings are Lean `String`s; the Python string
operations used by the code (`split(" > ")`, `" ".join`, `in`, `lower()`,
`replace(" ", "%20")`) are given explicit structural definitions below so
that every theorem can be evaluated on concrete inputs.
-/

namespace ABBSupport

/-! ### Python string primitives used by `main.py` -/

/-- Python `full_path.split(" > ")`, specialised to the fixed three-character
delimiter used by `clean_category_path`: scan left to right and cut at each
non-overlapping occurrence of `" > "`.  `cur` is the reversed current
segment. -/
def splitSegs (cur : List Char) : List Char → List (List Char)
  | ' ' :: '>' :: ' ' :: rest => cur.reverse :: splitSegs [] rest
  | c :: cs => splitSegs (c :: cur) cs
  | [] => [cur.reverse]

/-- Python `" ".join(parts)`. -/
def joinSpaceStr : List String → String
  | [] => ""
  | [s] => s
  | s :: rest => s ++ " " ++ joinSpaceStr rest

/-- Python substring test `needle in hay`. -/
def containsSeq (needle : List Char) : List Char → Bool
  | [] => decide (needle = [])
  | c :: cs => needle.isPrefixOf (c :: cs) || containsSeq needle cs

/-- Python `s.lower()` (ASCII case folding; all catalog keywords are ASCII). -/
def strLower (s : String) : String := String.mk (s.toList.map Char.toLower)

/-- Python `s.replace(" ", "%20")`. -/
def replaceSpace : List Char → List Char
  | [] => []
  | c :: cs =>
    if c = ' ' then '%' :: '2' :: '0' :: replaceSpace cs
    else c :: replaceSpace cs

/-! ### `clean_category_path` (main.py lines 50-67) -/

/-- `generic_roots` from `clean_category_path`. -/
def generic_roots : List String := ["ABB Products", "All Categories", "Products"]

/-- `parts = full_path.split(" > ")`. -/
def pathParts (full_path : String) : List String :=
  (splitSegs [] full_path.toList).map String.mk

/-- `filtered_parts = [p for p in parts if p not in generic_roots]`. -/
def filtered_parts (full_path : String) : List String :=
  (pathParts full_path).filter fun p => decide (p ∉ generic_roots)

/-- `clean_category_path` from `main.py`. -/
def clean_category_path (full_path : String) : String :=
  joinSpaceStr (filtered_parts full_path)

/-! ### The catalog table and `search_products` (main.py lines 70-159) -/

/-- One record of the product database. -/
structure CatalogEntry where
  title : String
  download_url : String
deriving DecidableEq

/-- The hardcoded `product_database` table, in declaration order. -/
def product_database : List (String × List CatalogEntry) := [
  ("hpr", [
    ⟨"High Power Rectifiers for primary aluminum smelting",
      "https://search.abb.com/library/Download.aspx?DocumentID=3BHS352574&LanguageCode=en&Action=Launch"⟩,
    ⟨"High power rectifiers - Product portfolio overview",
      "https://search.abb.com/library/Download.aspx?DocumentID=9AKK107492A3182&LanguageCode=en&Action=Launch"⟩,
    ⟨"High Power Rectifiers for Hydrogen Production",
      "https://search.abb.com/library/Download.aspx?DocumentID=9AKK107992A8938&LanguageCode=en&Action=Launch"⟩,
    ⟨"High Power Rectifiers for the Chlor-Alkali industry",
      "https://search.abb.com/library/Download.aspx?DocumentID=3BHS352575&LanguageCode=en&Action=Launch"⟩,
    ⟨"Service for high power rectifiers",
      "https://search.abb.com/library/Download.aspx?DocumentID=3BHS505186&LanguageCode=en&Action=Launch"⟩]),
  ("rectifier", [
    ⟨"MCR1000 Medium Current Rectifier",
      "https://search.abb.com/library/Download.aspx?DocumentID=3BHS546772E01&LanguageCode=en&Action=Launch"⟩,
    ⟨"Compact Rectifier â€“ Water Cooled",
      "https://search.abb.com/library/Download.aspx?DocumentID=9AKK108467A6325&LanguageCode=en&Action=Launch"⟩,
    ⟨"Compact Rectifier CRW Series",
      "https://search.abb.com/library/Download.aspx?DocumentID=9AKK107046A7093&LanguageCode=en&Action=Launch"⟩,
    ⟨"Compact Rectifier CRA Series",
      "https://search.abb.com/library/Download.aspx?DocumentID=9AKK107046A7092&LanguageCode=en&Action=Launch"⟩]),
  ("mcr", [
    ⟨"MCR1000 Medium Current Rectifier",
      "https://search.abb.com/library/Download.aspx?DocumentID=3BHS546772E01&LanguageCode=en&Action=Launch"⟩]),
  ("drive", [
    ⟨"ACS880 primary control program firmware manual",
      "https://search.abb.com/library/Download.aspx?DocumentID=3AUA0000085967&LanguageCode=en&Action=Launch"⟩,
    ⟨"ACS580 User Manual",
      "https://search.abb.com/library/Download.aspx?DocumentID=3AUA0000064448&LanguageCode=en&Action=Launch"⟩,
    ⟨"ACS380 Machinery Drive Manual",
      "https://search.abb.com/library/Download.aspx?DocumentID=3AUA0000117344&LanguageCode=en&Action=Launch"⟩]),
  ("robot", [
    ⟨"IRB 6700 Product Manual",
      "https://search.abb.com/library/Download.aspx?DocumentID=3HAC052982-001&LanguageCode=en&Action=Launch"⟩,
    ⟨"IRC5 Controller Product Manual",
      "https://search.abb.com/library/Download.aspx?DocumentID=3HAC050945-001&LanguageCode=en&Action=Launch"⟩]),
  ("motor", [
    ⟨"ABB Motors and Generators Catalog",
      "https://search.abb.com/library/Download.aspx?DocumentID=9AKK105713A8893&LanguageCode=en&Action=Launch"⟩,
    ⟨"Low voltage motors IEC Technical Catalog",
      "https://search.abb.com/library/Download.aspx?DocumentID=9AKK107045A4890&LanguageCode=en&Action=Launch"⟩])]

/-- The structured payload of an HTTP response (`json.dumps` bodies are kept
as structured data; the literal error strings are preserved exactly). -/
inductive RespBody where
  | errMsg (msg : String)
  | searchOk (products : List CatalogEntry) (query : String) (search_url : String)
  | ingestOk (file_uri : String) (file_name : String)
  | chatOk (response : String)
deriving DecidableEq

/-- An `https_fn.Response` (status defaults to 200 in the source). -/
structure Response where
  status : Nat
  body : RespBody
deriving DecidableEq

/-- `ABB_LIBRARY_URL` constant. -/
def ABB_LIBRARY_URL : String := "https://library.abb.com"

/-- The f-string building `search_url` in `search_products`. -/
def searchUrlFor (search_query : String) : String :=
  ABB_LIBRARY_URL ++ "/r?cid=pscat&lang=en&q=" ++
    String.mk (replaceSpace search_query.toList)

/-- Inner loop of `search_products`: append one keyword group's entries,
skipping titles already in `seen`. -/
def addGroup : List CatalogEntry → List String → List CatalogEntry →
    List String × List CatalogEntry
  | [], seen, acc => (seen, acc)
  | p :: ps, seen, acc =>
    if p.title ∈ seen then addGroup ps seen acc
    else addGroup ps (p.title :: seen) (acc ++ [p])

/-- Outer loop of `search_products` over `product_database.items()`. -/
def matchLoop : List (String × List CatalogEntry) → String → List String →
    List CatalogEntry → List String × List CatalogEntry
  | [], _, seen, acc => (seen, acc)
  | (keyword, prods) :: rest, query_lower, seen, acc =>
    if containsSeq keyword.toList query_lower.toList then
      let sp := addGroup prods seen acc
      matchLoop rest query_lower sp.1 sp.2
    else matchLoop rest query_lower seen acc

/-- The `search_products` handler (non-OPTIONS path).  The request body is
represented by its one relevant field: `data.get("full_path", "")` is `none`
when the field is missing. -/
def search_products (full_path_field : Option String) : Response :=
  let full_path := full_path_field.getD ""
  if full_path = "" then ⟨400, .errMsg "Missing full_path parameter"⟩
  else
    let search_query := clean_category_path full_path
    let query_lower := strLower search_query
    let products := (matchLoop product_database query_lower [] []).2
    ⟨200, .searchOk (products.take 10) search_query (searchUrlFor search_query)⟩

/-! ### Specification-side description of the Catalog Matcher

These definitions follow the words of the specification (section 4.2) and are
compared with the implementation in the theorem for C1. -/

/-- Spec-side: concatenation, in table-declaration order, of the entries of
every keyword group whose keyword occurs in the lower-cased query. -/
def matchedOf : List (String × List CatalogEntry) → String → List CatalogEntry
  | [], _ => []
  | kv :: rest, query_lower =>
    if containsSeq kv.1.toList query_lower.toList then
      kv.2 ++ matchedOf rest query_lower
    else matchedOf rest query_lower

/-- Spec-side deduplication: keep the first entry bearing each title
(case-sensitive exact comparison). -/
def dedupTitles : List String → List CatalogEntry → List CatalogEntry
  | _, [] => []
  | seen, p :: ps =>
    if p.title ∈ seen then dedupTitles seen ps
    else p :: dedupTitles (p.title :: seen) ps

/-- Titles recorded after scanning a group (used to relate the two sides). -/
def seenAfter : List String → List CatalogEntry → List String
  | seen, [] => seen
  | seen, p :: ps =>
    if p.title ∈ seen then seenAfter seen ps
    else seenAfter (p.title :: seen) ps

/-- Spec-side Catalog Matcher: lower-case the query, gather the matching
groups in table order, deduplicate by title, and truncate to 10 only at the
end. -/
def specProducts (search_query : String) : List CatalogEntry :=
  (dedupTitles [] (matchedOf product_database (strLower search_query))).take 10

/-! ### `get_genai_client` (main.py lines 39-44) -/

/-- `get_genai_client`: the `GEMINI_API_KEY` environment value (empty when
the variable is absent) yields a client exactly when non-empty. -/
def get_genai_client (apiKey : String) : Option Unit :=
  if apiKey = "" then none else some ()

/-! ### `ingest_manual` (main.py lines 162-270) -/

/-- The first `requests.get` response: declared content kind and body (used
both as HTML text to parse and as raw PDF bytes). -/
structure PageResp where
  contentType : String
  content : String
deriving DecidableEq

/-- An `iframe` element as found by `soup.find('iframe', id='mainFrame')`:
its `src` attribute may be absent. -/
structure IframeElem where
  src : Option String

/-- An uploaded-file handle from the file-store capability: `name`, `uri`
and `state.name`. -/
structure FileHandle where
  name : String
  uri : String
  state : String
deriving DecidableEq

/-- Outbound calls performed by `ingest_manual`. -/
inductive Event where
  | fetch (url : String)
  | upload
deriving DecidableEq

/-- Oracles for the effectful collaborators of `ingest_manual`.  `.error e`
models a raised exception (timeout, `raise_for_status`, SDK failure) with
message `e`; `getFile k` is the handle returned by the `k`-th status
re-fetch inside the poll loop. -/
structure IngestEnv where
  apiKey : String
  download_url_field : Option String
  firstFetch : String → Except String PageResp
  findIframe : String → Option IframeElem
  secondFetch : String → Except String String
  upload : Except String FileHandle
  getFile : Nat → Except String FileHandle

/-- Lines 197-223: first fetch, content-kind classification, iframe
extraction and the optional second fetch.  Returns the PDF bytes or an early
response, in both cases together with the fetch events performed. -/
def acquirePdf (env : IngestEnv) (download_url : String) :
    Except (Response × List Event) (String × List Event) :=
  match env.firstFetch download_url with
  | .error e => .error (⟨500, .errMsg e⟩, [.fetch download_url])
  | .ok page =>
    if containsSeq "text/html".toList page.contentType.toList then
      match env.findIframe page.content with
      | some ifr =>
        match ifr.src with
        | some s =>
          if s = "" then
            .error (⟨500, .errMsg "Could not find PDF URL in ABB library page"⟩,
              [.fetch download_url])
          else
            match env.secondFetch s with
            | .error e => .error (⟨500, .errMsg e⟩, [.fetch download_url, .fetch s])
            | .ok bytes => .ok (bytes, [.fetch download_url, .fetch s])
        | none =>
          .error (⟨500, .errMsg "Could not find PDF URL in ABB library page"⟩,
            [.fetch download_url])
      | none =>
        .error (⟨500, .errMsg "Could not find PDF URL in ABB library page"⟩,
          [.fetch download_url])
    else
      .ok (page.content, [.fetch download_url])

/-- Lines 234-242: the poll loop.  `while state == "PROCESSING" and elapsed <
120: sleep 5; elapsed += 5; re-fetch`.  The second component counts the
status re-fetches performed; an `.error` is an exception raised by a
re-fetch. -/
def pollLoopE (get : Nat → Except String FileHandle) (f : FileHandle)
    (elapsed k : Nat) : Except String FileHandle × Nat :=
  if _h : f.state = "PROCESSING" ∧ elapsed < 120 then
    match get k with
    | .error e => (.error e, k + 1)
    | .ok f2 => pollLoopE get f2 (elapsed + 5) (k + 1)
  else (.ok f, k)
termination_by 120 - elapsed
decreasing_by omega

/-- Lines 230-258: upload, poll, and finalize.  `.error` in the first
component is an exception that will be converted to a 500 by the outer
handler; `.ok r` is an explicit `return r`. -/
def uploadPhase (env : IngestEnv) : Except String Response × List Event :=
  match env.upload with
  | .error e => (.error e, [.upload])
  | .ok f0 =>
    match pollLoopE env.getFile f0 0 0 with
    | (.error e, _) => (.error e, [.upload])
    | (.ok ffin, _) =>
      if ffin.state ≠ "ACTIVE" then
        (.ok ⟨500, .errMsg ("File processing failed: " ++ ffin.state)⟩, [.upload])
      else
        (.ok ⟨200, .ingestOk ffin.uri ffin.name⟩, [.upload])

/-- Lines 260-263, the `finally:` block: `if os.path.exists(tmp_path):
os.unlink(tmp_path)`. -/
def cleanupTmp (tmpExists : Bool) : Bool :=
  if tmpExists then false else tmpExists

/-- The `try/finally` region entered once the PDF bytes have been written to
the temporary file (`tmpExists` is the state of that file on entry, `true`
right after the write).  Returns the response, the events of the phase, and
the final state of the temporary file after the `finally:` cleanup; an
exception escaping the `try` is converted to a 500 by the outer `except`. -/
def ingestAfterWrite (env : IngestEnv) (tmpExists : Bool) :
    Response × List Event × Bool :=
  let out := uploadPhase env
  let resp : Response :=
    match out.1 with
    | .ok r => r
    | .error e => ⟨500, .errMsg e⟩
  (resp, out.2, cleanupTmp tmpExists)

/-- Observable outcome of one `ingest_manual` invocation: the HTTP response,
the outbound calls performed, and whether the temporary PDF file still
exists when the handler returns. -/
structure IngestResult where
  resp : Response
  events : List Event
  tmpExists : Bool
deriving DecidableEq

/-- The `ingest_manual` handler (non-OPTIONS path). -/
def ingest_manual (env : IngestEnv) : IngestResult :=
  match get_genai_client env.apiKey with
  | none => ⟨⟨500, .errMsg "Gemini API key not configured"⟩, [], false⟩
  | some _ =>
    let download_url := env.download_url_field.getD ""
    if download_url = "" then
      ⟨⟨400, .errMsg "Missing download_url parameter"⟩, [], false⟩
    else
      match acquirePdf env download_url with
      | .error re => ⟨re.1, re.2, false⟩
      | .ok pe =>
        let r := ingestAfterWrite env true
        ⟨r.1, pe.2 ++ r.2.1, r.2.2⟩

/-! ### `chat_agent` (main.py lines 273-348) -/

/-- One element of the `contents` list passed to `generate_content`. -/
inductive ContentItem where
  | filePart (uri : String) (mime : String)
  | text (s : String)
deriving DecidableEq

/-- Oracles for `chat_agent`: `fromUri` is `types.Part.from_uri` (succeeding
or raising), `generate` is `client.models.generate_content` returning
`response.text` (the fixed model id and system instruction are implicit in
the oracle). -/
structure ChatEnv where
  apiKey : String
  user_message_field : Option String
  file_uri_field : Option String
  file_name_field : Option String
  fromUri : String → Except String Unit
  generate : List ContentItem → Except String String

/-- The `chat_agent` handler (non-OPTIONS path). -/
def chat_agent (env : ChatEnv) : Response :=
  match get_genai_client env.apiKey with
  | none => ⟨500, .errMsg "Gemini API key not configured"⟩
  | some _ =>
    let user_message := env.user_message_field.getD ""
    let file_uri := env.file_uri_field.getD ""
    let file_name := env.file_name_field.getD ""
    if user_message = "" then ⟨400, .errMsg "Missing user_message parameter"⟩
    else
      let fileContents : List ContentItem :=
        if file_name ≠ "" ∧ file_uri ≠ "" then
          match env.fromUri file_uri with
          | .ok _ => [ContentItem.filePart file_uri "application/pdf"]
          | .error _ => []
        else []
      match env.generate (fileContents ++ [ContentItem.text user_message]) with
      | .ok t => ⟨200, .chatOk t⟩
      | .error e => ⟨500, .errMsg e⟩

/-! ### Concrete environments used by the witness theorems -/

/-- A handle whose terminal state is a non-ACTIVE failure. -/
def failedHandle : FileHandle := ⟨"files/abc", "uri://abc", "FAILED"⟩

/-- Ingestion run in which the upload immediately reports a failed state. -/
def pollEnv : IngestEnv where
  apiKey := "k"
  download_url_field := some "http://x/doc"
  firstFetch := fun _ => .ok ⟨"application/pdf", "PDFBYTES"⟩
  findIframe := fun _ => none
  secondFetch := fun _ => .error "unused"
  upload := .ok failedHandle
  getFile := fun _ => .ok failedHandle

/-- Ingestion request with a configured key but no `download_url`. -/
def noFieldIngestEnv : IngestEnv where
  apiKey := "k"
  download_url_field := none
  firstFetch := fun _ => .error "unused"
  findIframe := fun _ => none
  secondFetch := fun _ => .error "unused"
  upload := .error "unused"
  getFile := fun _ => .error "unused"

/-- Chat request with a configured key but no `user_message`. -/
def noFieldChatEnv : ChatEnv where
  apiKey := "k"
  user_message_field := none
  file_uri_field := none
  file_name_field := none
  fromUri := fun _ => .error "unused"
  generate := fun _ => .error "unused"

/-- Ingestion of an HTML page that contains no `mainFrame` iframe. -/
def htmlNoFrameEnv : IngestEnv where
  apiKey := "k"
  download_url_field := some "http://x/page"
  firstFetch := fun _ => .ok ⟨"text/html; charset=utf-8", "<html><body></body></html>"⟩
  findIframe := fun _ => none
  secondFetch := fun _ => .error "unused"
  upload := .error "unused"
  getFile := fun _ => .error "unused"

/-- Chat request whose file-reference construction raises. -/
def chatFailEnv : ChatEnv where
  apiKey := "k"
  user_message_field := some "hello"
  file_uri_field := some "uri1"
  file_name_field := some "name1"
  fromUri := fun _ => .error "not found"
  generate := fun _ => .ok "answer"

/-- Ingestion request with no API key and no `download_url`. -/
def noKeyIngestEnv : IngestEnv where
  apiKey := ""
  download_url_field := none
  firstFetch := fun _ => .error "unused"
  findIframe := fun _ => none
  secondFetch := fun _ => .error "unused"
  upload := .error "unused"
  getFile := fun _ => .error "unused"

/-- Chat request with no API key and no `user_message`. -/
def noKeyChatEnv : ChatEnv where
  apiKey := ""
  user_message_field := none
  file_uri_field := none
  file_name_field := none
  fromUri := fun _ => .error "unused"
  generate := fun _ => .error "unused"

/-! ### Helper lemmas -/

theorem addGroup_eq (ps : List CatalogEntry) : ∀ seen acc,
    addGroup ps seen acc = (seenAfter seen ps, acc ++ dedupTitles seen ps) := by
  induction ps with
  | nil => intro seen acc; simp [addGroup, seenAfter, dedupTitles]
  | cons p ps ih =>
    intro seen acc
    by_cases h : p.title ∈ seen
    · simp [addGroup, seenAfter, dedupTitles, h, ih]
    · simp [addGroup, seenAfter, dedupTitles, h, ih]

theorem seenAfter_append (xs : List CatalogEntry) : ∀ ys seen,
    seenAfter seen (xs ++ ys) = seenAfter (seenAfter seen xs) ys := by
  induction xs with
  | nil => intro ys seen; simp [seenAfter]
  | cons p xs ih =>
    intro ys seen
    by_cases h : p.title ∈ seen <;> simp [seenAfter, h, ih]

theorem dedupTitles_append (xs : List CatalogEntry) : ∀ ys seen,
    dedupTitles seen (xs ++ ys) =
      dedupTitles seen xs ++ dedupTitles (seenAfter seen xs) ys := by
  induction xs with
  | nil => intro ys seen; simp [dedupTitles, seenAfter]
  | cons p xs ih =>
    intro ys seen
    by_cases h : p.title ∈ seen <;> simp [dedupTitles, seenAfter, h, ih]

theorem matchLoop_eq (table : List (String × List CatalogEntry))
    (query_lower : String) : ∀ seen acc,
    matchLoop table query_lower seen acc =
      (seenAfter seen (matchedOf table query_lower),
        acc ++ dedupTitles seen (matchedOf table query_lower)) := by
  induction table with
  | nil => intro seen acc; simp [matchLoop, matchedOf, seenAfter, dedupTitles]
  | cons kv rest ih =>
    intro seen acc
    obtain ⟨kw, prods⟩ := kv
    by_cases h : containsSeq kw.data query_lower.data
    · simp [matchLoop, matchedOf, h, addGroup_eq, ih, seenAfter_append,
        dedupTitles_append]
    · simp [matchLoop, matchedOf, h, ih]

theorem matchedOf_eq_nil (table : List (String × List CatalogEntry))
    (query_lower : String)
    (h : (table.all fun kv => !(containsSeq kv.1.toList query_lower.toList)) = true) :
    matchedOf table query_lower = [] := by
  induction table with
  | nil => simp [matchedOf]
  | cons kv rest ih =>
    simp only [List.all_cons, Bool.and_eq_true, Bool.not_eq_true'] at h
    have h1 : containsSeq kv.1.data query_lower.data = false := h.1
    simp [matchedOf, h1, ih (by simpa using h.2)]

theorem pollLoopE_step (get : Nat → Except String FileHandle) (f : FileHandle)
    (elapsed k : Nat) (h : f.state = "PROCESSING" ∧ elapsed < 120) :
    pollLoopE get f elapsed k =
      match get k with
      | .error e => (.error e, k + 1)
      | .ok f2 => pollLoopE get f2 (elapsed + 5) (k + 1) := by
  rw [pollLoopE]
  simp [h]

theorem pollLoopE_exit (get : Nat → Except String FileHandle) (f : FileHandle)
    (elapsed k : Nat) (h : ¬(f.state = "PROCESSING" ∧ elapsed < 120)) :
    pollLoopE get f elapsed k = (.ok f, k) := by
  rw [pollLoopE]
  simp [h]

theorem pollLoopE_count_le (get : Nat → Except String FileHandle) :
    ∀ (n : Nat) (f : FileHandle) (elapsed k : Nat), 120 - elapsed ≤ n →
      (pollLoopE get f elapsed k).2 ≤ k + (124 - elapsed) / 5 := by
  intro n
  induction n with
  | zero =>
    intro f elapsed k hn
    have hc : ¬(f.state = "PROCESSING" ∧ elapsed < 120) := by
      rintro ⟨-, h2⟩; omega
    rw [pollLoopE_exit get f elapsed k hc]
    omega
  | succ n ih =>
    intro f elapsed k hn
    by_cases hc : f.state = "PROCESSING" ∧ elapsed < 120
    · rw [pollLoopE_step get f elapsed k hc]
      cases hget : get k with
      | error e =>
        simp only []
        have : elapsed < 120 := hc.2
        omega
      | ok f2 =>
        simp only []
        have h1 := ih f2 (elapsed + 5) (k + 1) (by omega)
        have : elapsed < 120 := hc.2
        omega
    · rw [pollLoopE_exit get f elapsed k hc]
      omega

/-! ### Claim theorems -/

/-- C1: the Catalog Matcher lower-cases the query, visits the catalog
keywords in table-declaration order, appends each matching keyword's entries
in order while skipping entries whose exact title was already added, and
truncates to the first 10 entries only after the full iteration: the
implementation loop of `search_products` coincides with the spec-side
description `specProducts`, both on the raw matcher and on the full
handler response. -/
theorem catalog_matcher_refines_spec :
    (∀ q : String,
      ((matchLoop product_database (strLower q) [] []).2).take 10 = specProducts q) ∧
    (∀ fp : String, fp ≠ "" →
      search_products (some fp) =
        ⟨200, .searchOk (specProducts (clean_category_path fp))
          (clean_category_path fp) (searchUrlFor (clean_category_path fp))⟩) := by
  constructor
  · intro q
    simp [matchLoop_eq, specProducts]
  · intro fp h
    simp [search_products, h, matchLoop_eq, specProducts]

/-- Witness for C1 at the query `"hpr rectifier"` and the path `"HPR"`. -/
theorem catalog_matcher_refines_spec_witness :
    ((matchLoop product_database (strLower "hpr rectifier") [] []).2).take 10 =
      specProducts "hpr rectifier" ∧
    search_products (some "HPR") =
      ⟨200, .searchOk (specProducts (clean_category_path "HPR"))
        (clean_category_path "HPR") (searchUrlFor (clean_category_path "HPR"))⟩ :=
  ⟨catalog_matcher_refines_spec.1 "hpr rectifier",
   catalog_matcher_refines_spec.2 "HPR" (by decide)⟩

/-- C3: the Query Normalizer splits on the literal `" > "`, drops exactly the
segments equal to a stop-word, rejoins with single spaces preserving order,
and on the two documented inputs produces `"HPR Rectifier MCR"` and `""`. -/
theorem clean_category_path_spec :
    (∀ fp : String,
      clean_category_path fp =
        joinSpaceStr ((pathParts fp).filter fun p => decide (p ∉ generic_roots)) ∧
      List.Sublist (filtered_parts fp) (pathParts fp) ∧
      ∀ p, p ∈ filtered_parts fp ↔ p ∈ pathParts fp ∧ p ∉ generic_roots) ∧
    clean_category_path "ABB Products > HPR > Rectifier > MCR" = "HPR Rectifier MCR" ∧
    clean_category_path "ABB Products > Products" = "" := by
  refine ⟨fun fp => ⟨rfl, List.filter_sublist _, fun p => ?_⟩, by decide, by decide⟩
  simp [filtered_parts]

/-- C6 counterexample: on the input `" > "` (and likewise on the empty path)
both split segments are empty, neither is a stop-word, so empty segments
survive the filtering, contradicting the claimed no-empty-segment
invariant. -/
theorem filtered_parts_empty_segment :
    filtered_parts " > " = ["", ""] ∧ "" ∈ filtered_parts " > " ∧
    clean_category_path " > " = " " ∧ "" ∈ filtered_parts "" := by decide

/-- C6 (amended): normalization preserves segment order and filtering removes
only exact stop-set matches; and provided every segment of the input path is
non-empty, no segment remaining after the filtering is empty. -/
theorem filtered_parts_invariant (fp : String) :
    List.Sublist (filtered_parts fp) (pathParts fp) ∧
    (∀ p, p ∈ pathParts fp → p ∉ generic_roots → p ∈ filtered_parts fp) ∧
    ((∀ p ∈ pathParts fp, p ≠ "") → ∀ p ∈ filtered_parts fp, p ≠ "") := by
  refine ⟨List.filter_sublist _, ?_, ?_⟩
  · intro p hp hnp
    simp [filtered_parts, List.mem_filter, hp, hnp]
  · intro h p hp
    exact h p (List.mem_of_mem_filter hp)

/-- Witness for C6 (amended) on `"ABB Products > HPR"`, whose segments are
all non-empty: the empty string is not among the remaining segments. -/
theorem filtered_parts_invariant_witness : "" ∉ filtered_parts "ABB Products > HPR" :=
  fun hmem =>
    (filtered_parts_invariant "ABB Products > HPR").2.2 (by decide) "" hmem rfl

/-- C7: a query whose lower-cased form contains no catalog keyword yields an
empty product list with HTTP success status and the reference search URL
built by space-to-%20 encoding of the (non-lower-cased) normalized query. -/
theorem search_no_keyword_match (fp : String) (h : fp ≠ "")
    (hnone : (product_database.all fun kv =>
      !(containsSeq kv.1.toList (strLower (clean_category_path fp)).toList)) = true) :
    search_products (some fp) =
      ⟨200, .searchOk [] (clean_category_path fp)
        (searchUrlFor (clean_category_path fp))⟩ := by
  have hm := matchedOf_eq_nil product_database (strLower (clean_category_path fp)) hnone
  simp [search_products, h, matchLoop_eq, hm, dedupTitles]

/-- Witness for C7 at the path `"XYZ"`, which matches no catalog keyword. -/
theorem search_no_keyword_match_witness :
    ("XYZ" : String) ≠ "" ∧
    (product_database.all fun kv =>
      !(containsSeq kv.1.toList (strLower (clean_category_path "XYZ")).toList)) = true ∧
    search_products (some "XYZ") =
      ⟨200, .searchOk [] (clean_category_path "XYZ")
        (searchUrlFor (clean_category_path "XYZ"))⟩ :=
  ⟨by decide, by decide, search_no_keyword_match "XYZ" (by decide) (by decide)⟩

/-- C2: the poll loop iterates only while the state is PROCESSING and elapsed
time is below 120, so it performs at most 120 / 5 = 24 status re-fetches for
every behaviour of the status oracle; and whenever the loop exits with a
state other than ACTIVE, `ingest_manual` returns the 500 failure carrying the
observed state string. -/
theorem ingest_poll_bounded :
    (∀ (get : Nat → Except String FileHandle) (f : FileHandle),
      (pollLoopE get f 0 0).2 ≤ 24) ∧
    (∀ (env : IngestEnv) (u pdf : String) (evs : List Event)
        (f0 ffin : FileHandle) (k : Nat),
      env.apiKey ≠ "" → env.download_url_field = some u → u ≠ "" →
      acquirePdf env u = .ok (pdf, evs) → env.upload = .ok f0 →
      pollLoopE env.getFile f0 0 0 = (.ok ffin, k) → ffin.state ≠ "ACTIVE" →
      (ingest_manual env).resp =
        ⟨500, .errMsg ("File processing failed: " ++ ffin.state)⟩) := by
  constructor
  · intro get f
    have h := pollLoopE_count_le get 120 f 0 0 (by omega)
    omega
  · intro env u pdf evs f0 ffin k hA hdl hu hacq hup hpoll hstate
    simp [ingest_manual, get_genai_client, hA, hdl, hu, hacq, ingestAfterWrite,
      uploadPhase, hup, hpoll, hstate, cleanupTmp]

/-- Witness for C2: the all-PROCESSING bound instance, and a run whose upload
handle reports the terminal state FAILED. -/
theorem ingest_poll_bounded_witness :
    (pollLoopE pollEnv.getFile failedHandle 0 0).2 ≤ 24 ∧
    (ingest_manual pollEnv).resp =
      ⟨500, .errMsg ("File processing failed: " ++ failedHandle.state)⟩ :=
  ⟨ingest_poll_bounded.1 pollEnv.getFile failedHandle,
   ingest_poll_bounded.2 pollEnv "http://x/doc" "PDFBYTES"
     [Event.fetch "http://x/doc"] failedHandle failedHandle 0
     (by decide) rfl (by decide) rfl rfl
     (pollLoopE_exit _ _ _ _ (by decide)) (by decide)⟩

/-- C4: once the PDF bytes have been written to the temporary file, the
`finally:` cleanup removes it on every exit path of the try-region
(successful upload, upload or polling failure, and exceptions), and
consequently no `ingest_manual` invocation returns with the temporary file
still present. -/
theorem ingest_tmp_cleanup :
    (∀ (env : IngestEnv) (tmp : Bool), (ingestAfterWrite env tmp).2.2 = false) ∧
    (∀ env : IngestEnv, (ingest_manual env).tmpExists = false) := by
  constructor
  · intro env tmp
    cases tmp <;> simp [ingestAfterWrite, cleanupTmp]
  · intro env
    unfold ingest_manual
    cases get_genai_client env.apiKey with
    | none => rfl
    | some u =>
      by_cases h : env.download_url_field.getD "" = ""
      · simp [h]
      · simp only [h, if_false]
        cases hacq : acquirePdf env (env.download_url_field.getD "") with
        | error re => simp [hacq]
        | ok pe => simp [hacq, ingestAfterWrite, cleanupTmp]

/-- C5: a missing or empty required field yields HTTP 400 with the exact
documented error message on each of the three endpoints (for ingest and chat
this is observed once the API key is configured, since the credential check
runs first). -/
theorem missing_field_responses :
    (∀ fp : Option String, fp.getD "" = "" →
      search_products fp = ⟨400, .errMsg "Missing full_path parameter"⟩) ∧
    (∀ env : IngestEnv, env.apiKey ≠ "" → env.download_url_field.getD "" = "" →
      ingest_manual env =
        ⟨⟨400, .errMsg "Missing download_url parameter"⟩, [], false⟩) ∧
    (∀ env : ChatEnv, env.apiKey ≠ "" → env.user_message_field.getD "" = "" →
      chat_agent env = ⟨400, .errMsg "Missing user_message parameter"⟩) := by
  refine ⟨?_, ?_, ?_⟩
  · intro fp h
    simp [search_products, h]
  · intro env hA h
    simp [ingest_manual, get_genai_client, hA, h]
  · intro env hA h
    simp [chat_agent, get_genai_client, hA, h]

/-- Witness for C5: a request with the field absent on each endpoint. -/
theorem missing_field_responses_witness :
    search_products none = ⟨400, .errMsg "Missing full_path parameter"⟩ ∧
    ingest_manual noFieldIngestEnv =
      ⟨⟨400, .errMsg "Missing download_url parameter"⟩, [], false⟩ ∧
    chat_agent noFieldChatEnv = ⟨400, .errMsg "Missing user_message parameter"⟩ :=
  ⟨missing_field_responses.1 none rfl,
   missing_field_responses.2.1 noFieldIngestEnv (by decide) rfl,
   missing_field_responses.2.2 noFieldChatEnv (by decide) rfl⟩

/-- C8: when the first fetch succeeds with an HTML content kind but the page
has no `mainFrame` iframe (or the iframe has no `src` attribute),
`ingest_manual` fails with the exact extraction error, performs no upload
call, and performs no second fetch. -/
theorem ingest_html_no_iframe (env : IngestEnv) (u : String) (page : PageResp)
    (hA : env.apiKey ≠ "") (hdl : env.download_url_field = some u) (hu : u ≠ "")
    (hf : env.firstFetch u = .ok page)
    (hhtml : containsSeq "text/html".toList page.contentType.toList = true)
    (hifr : env.findIframe page.content = none ∨
      ∃ fr, env.findIframe page.content = some fr ∧ fr.src = none) :
    ingest_manual env =
      ⟨⟨500, .errMsg "Could not find PDF URL in ABB library page"⟩,
        [Event.fetch u], false⟩ ∧
    Event.upload ∉ (ingest_manual env).events := by
  have hhtml2 : containsSeq "text/html".data page.contentType.data = true := hhtml
  have hacq : acquirePdf env u =
      .error (⟨500, .errMsg "Could not find PDF URL in ABB library page"⟩,
        [Event.fetch u]) := by
    rcases hifr with h | ⟨fr, hfr, hsrc⟩
    · simp [acquirePdf, hf, hhtml2, h]
    · simp [acquirePdf, hf, hhtml2, hfr, hsrc]
  have hmain : ingest_manual env =
      ⟨⟨500, .errMsg "Could not find PDF URL in ABB library page"⟩,
        [Event.fetch u], false⟩ := by
    simp [ingest_manual, get_genai_client, hA, hdl, hu, hacq]
  refine ⟨hmain, ?_⟩
  rw [hmain]
  simp

/-- Witness for C8: an HTML page with no iframe at all. -/
theorem ingest_html_no_iframe_witness :
    ingest_manual htmlNoFrameEnv =
      ⟨⟨500, .errMsg "Could not find PDF URL in ABB library page"⟩,
        [Event.fetch "http://x/page"], false⟩ ∧
    Event.upload ∉ (ingest_manual htmlNoFrameEnv).events :=
  ingest_html_no_iframe htmlNoFrameEnv "http://x/page"
    ⟨"text/html; charset=utf-8", "<html><body></body></html>"⟩
    (by decide) rfl (by decide) rfl (by decide) (.inl rfl)

/-- C9: when both file fields are present but constructing the file reference
fails, the failure is swallowed: the generation request is assembled without
the file part and the turn returns the successful text response built from
the user message alone. -/
theorem chat_file_failure_swallowed (env : ChatEnv) (m u n t e : String)
    (hA : env.apiKey ≠ "") (hm : env.user_message_field = some m) (hm0 : m ≠ "")
    (hu : env.file_uri_field = some u) (hu0 : u ≠ "")
    (hn : env.file_name_field = some n) (hn0 : n ≠ "")
    (hfail : env.fromUri u = .error e)
    (hgen : env.generate [ContentItem.text m] = .ok t) :
    chat_agent env = ⟨200, .chatOk t⟩ := by
  simp [chat_agent, get_genai_client, hA, hm, hm0, hu, hu0, hn, hn0, hfail, hgen]

/-- Witness for C9: a chat turn whose `Part.from_uri` raises. -/
theorem chat_file_failure_swallowed_witness :
    chat_agent chatFailEnv = ⟨200, .chatOk "answer"⟩ :=
  chat_file_failure_swallowed chatFailEnv "hello" "uri1" "name1" "answer" "not found"
    (by decide) rfl (by decide) rfl (by decide) rfl (by decide) rfl rfl

/-- C10: the API-credential check precedes body validation: with an absent or
empty `GEMINI_API_KEY`, both `ingest_manual` and `chat_agent` answer 500 with
the configuration error for every request body, and the 400
missing-parameter response is never produced. -/
theorem api_key_checked_first (ienv : IngestEnv) (cenv : ChatEnv)
    (hi : ienv.apiKey = "") (hc : cenv.apiKey = "") :
    (ingest_manual ienv).resp = ⟨500, .errMsg "Gemini API key not configured"⟩ ∧
    (ingest_manual ienv).resp ≠ ⟨400, .errMsg "Missing download_url parameter"⟩ ∧
    chat_agent cenv = ⟨500, .errMsg "Gemini API key not configured"⟩ ∧
    chat_agent cenv ≠ ⟨400, .errMsg "Missing user_message parameter"⟩ := by
  have h1 : (ingest_manual ienv).resp =
      ⟨500, .errMsg "Gemini API key not configured"⟩ := by
    simp [ingest_manual, get_genai_client, hi]
  have h2 : chat_agent cenv = ⟨500, .errMsg "Gemini API key not configured"⟩ := by
    simp [chat_agent, get_genai_client, hc]
  refine ⟨h1, ?_, h2, ?_⟩
  · rw [h1]; simp
  · rw [h2]; simp

/-- Witness for C10: requests that lack both the API key and the required
body field still get the configuration error, not the 400. -/
theorem api_key_checked_first_witness :
    (ingest_manual noKeyIngestEnv).resp =
      ⟨500, .errMsg "Gemini API key not configured"⟩ ∧
    (ingest_manual noKeyIngestEnv).resp ≠
      ⟨400, .errMsg "Missing download_url parameter"⟩ ∧
    chat_agent noKeyChatEnv = ⟨500, .errMsg "Gemini API key not configured"⟩ ∧
    chat_agent noKeyChatEnv ≠ ⟨400, .errMsg "Missing user_message parameter"⟩ :=
  api_key_checked_first noKeyIngestEnv noKeyChatEnv rfl rfl

end ABBSupport
